import Mathlib

/-!
Shallow embedding of the RNC (non-conformance record) tracking app
`src/app_v24.py` in Lean 4, covering the persistence layer and the record
lifecycle operations: `insert_inspecao`, `add_photos`, `encerrar_inspecao`,
`reabrir_inspecao`, `add_peps_bulk`, `fetch_df`, the multiselect joiner
`join_list` and the status filter of the consultation page.

Modelling conventions:
  * SQLite rows become Lean structures; nullable columns become `Option`.
  * Timestamps (`datetime.now()`, the form date) are abstract `Nat` values
    passed explicitly where the Python code reads the clock.
  * Image blobs are `List Nat` (byte lists); their content is opaque here.
  * The database is a record of the three tables plus the autoincrement
    counters for the two tables whose generated ids the app observes.
  * Each `with engine.begin():` block of the source is one atomic
    transaction; an operation's transaction decomposition is modelled
    explicitly as a list of state transformers (`List (DB → DB)`), one per
    `engine.begin()` block executed, in program order.
-/

namespace RNC

/-- One row of the `inspecoes` table (schema of `init_db`, lines 21-48 of
`app_v24.py`).  Columns that start out NULL and are only filled by
close/reopen are `Option`; the columns set by `insert_inspecao` are plain
values of the inserted record. -/
structure Inspecao where
  id : Nat
  data : Option Nat
  rnc_num : String
  emitente : String
  area : String
  pep : Option String
  titulo : String
  responsavel : String
  descricao : String
  referencias : String
  causador : String
  processo_envolvido : String
  origem : String
  acao_correcao : String
  severidade : String
  categoria : String
  acoes : String
  status : String
  encerrada_em : Option Nat
  encerrada_por : Option String
  encerramento_obs : Option String
  eficacia : Option String
  responsavel_acao : String
  reaberta_em : Option Nat
  reaberta_por : Option String
  reabertura_motivo : Option String
  deriving Repr, DecidableEq

/-- One row of the `fotos` table. -/
structure Foto where
  id : Nat
  inspecao_id : Nat
  blob : List Nat
  filename : String
  mimetype : String
  tipo : String
  deriving Repr, DecidableEq

/-- One uploaded image as produced by `files_to_images`:
a dict with keys `blob`, `name`, `mime`. -/
structure Img where
  blob : List Nat
  name : String
  mime : String
  deriving Repr, DecidableEq

/-- The record (`rec` dict) passed to `insert_inspecao`: exactly the named
parameters of its INSERT statement (lines 103-108). -/
structure RecInput where
  data : Option Nat
  rnc_num : String
  emitente : String
  area : String
  pep : Option String
  titulo : String
  responsavel : String
  descricao : String
  referencias : String
  causador : String
  processo_envolvido : String
  origem : String
  acao_correcao : String
  severidade : String
  categoria : String
  acoes : String
  status : String
  responsavel_acao : String
  deriving Repr, DecidableEq

/-- The SQLite database: the three tables of `init_db` plus the
autoincrement counters.  The `peps` table is its list of `code` values in
insertion order (`id INTEGER PRIMARY KEY AUTOINCREMENT, code TEXT UNIQUE`);
the `id` column of `peps` is never observed by the app, so it is omitted. -/
structure DB where
  inspecoes : List Inspecao
  fotos : List Foto
  peps : List String
  nextInspecaoId : Nat
  nextFotoId : Nat
  deriving Repr, DecidableEq

/-- Python's `str.strip()`: remove leading and trailing whitespace.
(Python also strips some Unicode whitespace; the app's codes are ASCII.) -/
def strip (s : String) : String :=
  ⟨((s.data.dropWhile Char.isWhitespace).reverse.dropWhile Char.isWhitespace).reverse⟩

/-- Python truthiness of a string: `if c` is `c != ""`. -/
def pyTruthy (s : String) : Bool := !(s == "")

/-- `add_peps_bulk(codes)` (lines 87-98): trims each code, drops falsy /
whitespace-only entries, returns 0 on an empty remainder, otherwise runs
`INSERT OR IGNORE INTO peps (code) VALUES (:c)` per code — which leaves the
table unchanged when the code is already present (`code TEXT UNIQUE`) —
and increments `inserted` after every executed statement, ignored or not.
`pepStep` is one iteration of the loop body (lines 92-97). -/
def pepStep (acc : Nat × DB) (code : String) : Nat × DB :=
  let d := acc.2
  let d' := if d.peps.contains code then d else { d with peps := d.peps ++ [code] }
  (acc.1 + 1, d')

/-- `add_peps_bulk(codes)` proper (lines 87-98): the trim/drop preamble,
the early `return 0`, and the loop over the surviving codes. -/
def add_peps_bulk (codes : List String) (db : DB) : Nat × DB :=
  let codes := (codes.filter (fun c => pyTruthy c && pyTruthy (strip c))).map strip
  if codes.isEmpty then (0, db)
  else codes.foldl pepStep (0, db)

/-- The photo-insertion loop shared by `insert_inspecao` (lines 111-115,
with `tipo` literally `'abertura'`) and `add_photos` (lines 118-124):
one `INSERT INTO fotos ...` per image, in order. -/
def add_photos (iid : Nat) (images : List Img) (tipo : String) (db : DB) : DB :=
  images.foldl
    (fun d img =>
      { d with
          fotos := d.fotos ++
            [{ id := d.nextFotoId, inspecao_id := iid, blob := img.blob,
               filename := img.name, mimetype := img.mime, tipo := tipo }],
          nextFotoId := d.nextFotoId + 1 })
    db

/-- The row stored by the INSERT of `insert_inspecao` (lines 102-109): every
column comes verbatim from the bound `rec` parameter — including `:status` —
and the columns absent from the INSERT start out NULL. -/
def insertedRow (rec : RecInput) (iid : Nat) : Inspecao :=
  { id := iid, data := rec.data, rnc_num := rec.rnc_num, emitente := rec.emitente,
    area := rec.area, pep := rec.pep, titulo := rec.titulo,
    responsavel := rec.responsavel, descricao := rec.descricao,
    referencias := rec.referencias, causador := rec.causador,
    processo_envolvido := rec.processo_envolvido, origem := rec.origem,
    acao_correcao := rec.acao_correcao, severidade := rec.severidade,
    categoria := rec.categoria, acoes := rec.acoes, status := rec.status,
    encerrada_em := none, encerrada_por := none, encerramento_obs := none,
    eficacia := none, responsavel_acao := rec.responsavel_acao,
    reaberta_em := none, reaberta_por := none, reabertura_motivo := none }

/-- `insert_inspecao(rec, images)` (lines 100-116): inserts one row whose
columns come verbatim from `rec` (including `:status`), reads
`last_insert_rowid()`, inserts the images tagged `'abertura'`, and returns
the new id.  All inside a single `engine.begin()` block. -/
def insert_inspecao (rec : RecInput) (images : List Img) (db : DB) : Nat × DB :=
  let iid := db.nextInspecaoId
  let db1 : DB :=
    { db with inspecoes := db.inspecoes ++ [insertedRow rec iid], nextInspecaoId := iid + 1 }
  (iid, add_photos iid images "abertura" db1)

/-- The per-row effect of the UPDATE of `encerrar_inspecao` (lines 150-158):
`WHERE id=:iid` guards the SET clauses. -/
def encerrarRow (iid : Nat) (por obs eficacia : String) (now : Nat) (r : Inspecao) : Inspecao :=
  if r.id = iid then
    { r with status := "Encerrada", encerrada_em := some now, encerrada_por := some por,
             encerramento_obs := some obs, eficacia := some eficacia }
  else r

/-- The first `engine.begin()` block of `encerrar_inspecao`: the UPDATE. -/
def encerrarUpdate (iid : Nat) (por obs eficacia : String) (now : Nat) (db : DB) : DB :=
  { db with inspecoes := db.inspecoes.map (encerrarRow iid por obs eficacia now) }

/-- `encerrar_inspecao(iid, por, obs, eficacia, images)` (lines 148-160):
the UPDATE in its own transaction, then — outside that block —
`if images: add_photos(iid, images, "encerramento")`, which opens a second
transaction of its own. -/
def encerrar_inspecao (iid : Nat) (por obs eficacia : String) (now : Nat)
    (images : List Img) (db : DB) : DB :=
  let db1 := encerrarUpdate iid por obs eficacia now db
  if images.isEmpty then db1 else add_photos iid images "encerramento" db1

/-- The per-row effect of the UPDATE of `reabrir_inspecao` (lines 164-171). -/
def reabrirRow (iid : Nat) (por motivo : String) (now : Nat) (r : Inspecao) : Inspecao :=
  if r.id = iid then
    { r with status := "Em ação", reaberta_em := some now, reaberta_por := some por,
             reabertura_motivo := some motivo }
  else r

/-- The first `engine.begin()` block of `reabrir_inspecao`: the UPDATE. -/
def reabrirUpdate (iid : Nat) (por motivo : String) (now : Nat) (db : DB) : DB :=
  { db with inspecoes := db.inspecoes.map (reabrirRow iid por motivo now) }

/-- `reabrir_inspecao(iid, por, motivo, images)` (lines 162-173): the UPDATE
in its own transaction, then `if images: add_photos(iid, images,
"reabertura")` in a second transaction. -/
def reabrir_inspecao (iid : Nat) (por motivo : String) (now : Nat)
    (images : List Img) (db : DB) : DB :=
  let db1 := reabrirUpdate iid por motivo now db
  if images.isEmpty then db1 else add_photos iid images "reabertura" db1

/-- `join_list(lst)` (lines 228-229): `"; ".join([x for x in lst if x])`. -/
def join_list (lst : List String) : String :=
  String.intercalate "; " (lst.filter (fun x => !x.isEmpty))

/-- `CAUSADOR_OPTS` (line 223). -/
def CAUSADOR_OPTS : List String :=
  ["Solda", "Pintura", "Engenharia", "Fornecedor", "Cliente", "Caldeiraria",
   "Usinagem", "Planejamento", "Qualidade", "R.H", "Outros"]

/-- `PROCESSO_OPTS` (line 224). -/
def PROCESSO_OPTS : List String :=
  ["Comercial", "Compras", "Planejamento", "Recebimento", "Produção",
   "Inspeção Final", "Segurança", "Meio Ambiente", "5S", "R.H", "Outros"]

/-- `ORIGEM_OPTS` (line 225). -/
def ORIGEM_OPTS : List String :=
  ["Pintura", "Orçamento", "Usinagem", "Almoxarifado", "Solda", "Montagem",
   "Cliente", "Expedição", "Preparação", "R.H", "Outros"]

/-- `ACAO_CORRECAO_OPTS` (line 226). -/
def ACAO_CORRECAO_OPTS : List String :=
  ["Refugo", "Retrabalho", "Aceitar sob concessão", "Comunicar ao fornecedor",
   "Ver e agir", "Limpeza", "Manutenção", "Solicitação de compra"]

/-- The `rec` dict built by the "Nova RNC" form on submit (lines 279-298):
text inputs are stripped, the four multiselect lists go through `join_list`,
`acoes` is `""`, `status` is the literal `"Aberta"`, and `pep` is
`pep_final or None`. -/
def nova_rnc_rec (data_insp : Nat) (rnc_num emitente area pep_final titulo
    responsavel descricao referencias : String)
    (causador processo origem acao_correcao : List String)
    (severidade categoria responsavel_acao : String) : RecInput :=
  { data := some data_insp,
    rnc_num := strip rnc_num,
    emitente := strip emitente,
    area := strip area,
    pep := if pep_final == "" then none else some pep_final,
    titulo := strip titulo,
    responsavel := strip responsavel,
    descricao := strip descricao,
    referencias := strip referencias,
    causador := join_list causador,
    processo_envolvido := join_list processo,
    origem := join_list origem,
    acao_correcao := join_list acao_correcao,
    severidade := severidade,
    categoria := categoria,
    acoes := "",
    status := "Aberta",
    responsavel_acao := responsavel_acao }

/-- `ORDER BY id DESC`: row `a` may precede row `b` exactly when
`b.id ≤ a.id`. -/
def idGe (a b : Inspecao) : Prop := b.id ≤ a.id

instance : DecidableRel idGe := fun a b => inferInstanceAs (Decidable (b.id ≤ a.id))

instance : IsTotal Inspecao idGe := ⟨fun a b => Nat.le_total b.id a.id⟩

instance : IsTrans Inspecao idGe := ⟨fun _ _ _ h h' => Nat.le_trans h' h⟩

/-- `fetch_df()` (lines 126-139): `SELECT ... FROM inspecoes ORDER BY id
DESC` — all rows, sorted newest-id-first.  (The `data` column cast on line
138 only reformats the date and is not modelled.) -/
def fetch_df (db : DB) : List Inspecao :=
  List.insertionSort idGe db.inspecoes

/-- The status filter of the consultation page (line 320):
`if f_status: df = df[df["status"].isin(f_status)]`. -/
def statusFilter (f_status : List String) (df : List Inspecao) : List Inspecao :=
  if f_status.isEmpty then df else df.filter (fun r => f_status.contains r.status)

/-! ### Transaction decomposition

Each `with engine.begin():` block in the source commits independently.  An
operation is mapped to the list of blocks it executes, in order; running the
whole list reproduces the operation, and the states after each committed
prefix are the externally observable intermediate states were a later block
to fail. -/

/-- Run a list of transactions in order. -/
def runTxns (txns : List (DB → DB)) (db : DB) : DB :=
  txns.foldl (fun d t => t d) db

/-- The committed database states after each prefix of the transaction list:
position `n` is the state visible if exactly the first `n` transactions
committed. -/
def committedPrefixes (txns : List (DB → DB)) (db : DB) : List DB :=
  (List.range (txns.length + 1)).map (fun n => runTxns (txns.take n) db)

/-- An operation given by its transaction list is all-or-nothing from `db`
when every committed prefix state is the initial or the final state. -/
def allOrNothing (txns : List (DB → DB)) (db : DB) : Prop :=
  ∀ s ∈ committedPrefixes txns db, s = db ∨ s = runTxns txns db

/-- `insert_inspecao` is one `engine.begin()` block (lines 101-116). -/
def insert_inspecao_txns (rec : RecInput) (images : List Img) : List (DB → DB) :=
  [fun db => (insert_inspecao rec images db).2]

/-- `encerrar_inspecao`: the UPDATE block (lines 149-158), then — only when
`images` is non-empty — the separate `engine.begin()` block inside
`add_photos` (lines 119-124). -/
def encerrar_inspecao_txns (iid : Nat) (por obs eficacia : String) (now : Nat)
    (images : List Img) : List (DB → DB) :=
  [encerrarUpdate iid por obs eficacia now] ++
    (if images.isEmpty then [] else [add_photos iid images "encerramento"])

/-- `reabrir_inspecao`: the UPDATE block (lines 163-171), then — only when
`images` is non-empty — the `add_photos` block. -/
def reabrir_inspecao_txns (iid : Nat) (por motivo : String) (now : Nat)
    (images : List Img) : List (DB → DB) :=
  [reabrirUpdate iid por motivo now] ++
    (if images.isEmpty then [] else [add_photos iid images "reabertura"])

/-! ### Concrete fixtures used by witnesses and counterexamples -/

/-- A minimal open record with id 1, as `insert_inspecao` would store it for
an all-blank form. -/
def rec1 : Inspecao :=
  { id := 1, data := none, rnc_num := "", emitente := "", area := "", pep := none,
    titulo := "", responsavel := "", descricao := "", referencias := "",
    causador := "", processo_envolvido := "", origem := "", acao_correcao := "",
    severidade := "Baixa", categoria := "Qualidade", acoes := "", status := "Aberta",
    encerrada_em := none, encerrada_por := none, encerramento_obs := none,
    eficacia := none, responsavel_acao := "", reaberta_em := none,
    reaberta_por := none, reabertura_motivo := none }

/-- A database holding just the open record `rec1`. -/
def db1 : DB :=
  { inspecoes := [rec1], fotos := [], peps := [], nextInspecaoId := 2, nextFotoId := 1 }

/-- The empty database produced by `init_db` on a fresh file. -/
def emptyDB : DB :=
  { inspecoes := [], fotos := [], peps := [], nextInspecaoId := 1, nextFotoId := 1 }

/-- A one-byte uploaded image. -/
def img1 : Img := { blob := [7], name := "foto.jpg", mime := "image/jpeg" }

/-- A record input whose `status` field is not `"Aberta"`. -/
def recX : RecInput :=
  { data := none, rnc_num := "", emitente := "", area := "", pep := none,
    titulo := "", responsavel := "", descricao := "", referencias := "",
    causador := "", processo_envolvido := "", origem := "", acao_correcao := "",
    severidade := "Alta", categoria := "Qualidade", acoes := "",
    status := "Rascunho", responsavel_acao := "" }

/-- The state after only the first transaction of a concrete close commits:
the UPDATE has been applied, the photo has not been stored. -/
def closeHalfState : DB :=
  runTxns ((encerrar_inspecao_txns 1 "p" "o" "e" 7 [img1]).take 1) db1

/-! ### Helper lemmas -/

/-- The photo rows `add_photos iid images tipo` appends when the `fotos`
autoincrement counter stands at `n`. -/
def mkFotos (iid : Nat) (tipo : String) : List Img → Nat → List Foto
  | [], _ => []
  | img :: rest, n =>
      { id := n, inspecao_id := iid, blob := img.blob, filename := img.name,
        mimetype := img.mime, tipo := tipo } :: mkFotos iid tipo rest (n + 1)

theorem add_photos_spec (iid : Nat) (tipo : String) (images : List Img) (db : DB) :
    (add_photos iid images tipo db).inspecoes = db.inspecoes ∧
    (add_photos iid images tipo db).peps = db.peps ∧
    (add_photos iid images tipo db).nextInspecaoId = db.nextInspecaoId ∧
    (add_photos iid images tipo db).fotos = db.fotos ++ mkFotos iid tipo images db.nextFotoId := by
  induction images generalizing db with
  | nil => simp [add_photos, mkFotos]
  | cons img rest ih =>
      simp only [add_photos, List.foldl_cons] at ih ⊢
      have h := ih
        { db with
            fotos := db.fotos ++
              [{ id := db.nextFotoId, inspecao_id := iid, blob := img.blob,
                 filename := img.name, mimetype := img.mime, tipo := tipo }],
            nextFotoId := db.nextFotoId + 1 }
      simpa [mkFotos] using h

theorem mkFotos_length (iid : Nat) (tipo : String) (images : List Img) (n : Nat) :
    (mkFotos iid tipo images n).length = images.length := by
  induction images generalizing n with
  | nil => rfl
  | cons img rest ih => simp [mkFotos, ih]

theorem mkFotos_fields (iid : Nat) (tipo : String) (images : List Img) (n : Nat) :
    ∀ f ∈ mkFotos iid tipo images n, f.inspecao_id = iid ∧ f.tipo = tipo := by
  induction images generalizing n with
  | nil => simp [mkFotos]
  | cons img rest ih =>
      intro f hf
      rcases List.mem_cons.mp hf with rfl | hf
      · exact ⟨rfl, rfl⟩
      · exact ih (n + 1) f hf

theorem encerrar_inspecoes_eq (iid : Nat) (por obs eficacia : String) (now : Nat)
    (images : List Img) (db : DB) :
    (encerrar_inspecao iid por obs eficacia now images db).inspecoes =
      db.inspecoes.map (encerrarRow iid por obs eficacia now) := by
  unfold encerrar_inspecao
  split
  · rfl
  · exact (add_photos_spec _ _ _ _).1

theorem reabrir_inspecoes_eq (iid : Nat) (por motivo : String) (now : Nat)
    (images : List Img) (db : DB) :
    (reabrir_inspecao iid por motivo now images db).inspecoes =
      db.inspecoes.map (reabrirRow iid por motivo now) := by
  unfold reabrir_inspecao
  split
  · rfl
  · exact (add_photos_spec _ _ _ _).1

/-! ### Claims -/

/-- C1, counterexample: `insert_inspecao` does NOT override the input's
status.  Passing a record whose `status` field is `"Rascunho"` stores a row
whose status is `"Rascunho"`, not `"Aberta"`: the claim that the operation
itself ignores the input status field is false. -/
theorem insert_status_not_overridden_cex :
    recX.status = "Rascunho" ∧
    ((insert_inspecao recX [] emptyDB).2.inspecoes.map (·.status)) = ["Rascunho"] ∧
    "Rascunho" ≠ "Aberta" := by decide

/-- C1, amended: `insert_inspecao` stores the input record's `status` field
verbatim (the data layer does not force `"Aberta"`); it is the Nova RNC
form that always builds its `rec` with `status = "Aberta"` (line 296), so
every record created through the UI is stored with status `"Aberta"`. -/
theorem insert_status_passthrough (rec : RecInput) (images : List Img) (db : DB)
    (d : Nat) (rn em ar pf ti rp de rf : String) (cs ps os ac : List String)
    (sv cg ra : String) :
    (insert_inspecao rec images db).2.inspecoes =
      db.inspecoes ++ [insertedRow rec db.nextInspecaoId] ∧
    (insertedRow rec db.nextInspecaoId).status = rec.status ∧
    (insertedRow rec db.nextInspecaoId).id = (insert_inspecao rec images db).1 ∧
    (nova_rnc_rec d rn em ar pf ti rp de rf cs ps os ac sv cg ra).status = "Aberta" := by
  refine ⟨?_, rfl, rfl, rfl⟩
  exact (add_photos_spec _ _ _ _).1

/-- C2, counterexample: close with a non-empty photo list is NOT a single
all-or-nothing transaction.  On a database holding one open record, closing
record 1 with one photo runs two `engine.begin()` blocks; the state after
only the first block commits is neither the initial nor the final state —
the record is already `"Encerrada"` while its closure photo is absent. -/
theorem close_with_photos_not_atomic_cex :
    ¬ allOrNothing (encerrar_inspecao_txns 1 "p" "o" "e" 7 [img1]) db1 ∧
    closeHalfState ∈ committedPrefixes (encerrar_inspecao_txns 1 "p" "o" "e" 7 [img1]) db1 ∧
    closeHalfState.inspecoes.map (·.status) = ["Encerrada"] ∧
    closeHalfState.fotos = [] ∧
    (runTxns (encerrar_inspecao_txns 1 "p" "o" "e" 7 [img1]) db1).fotos ≠ [] := by
  refine ⟨?_, by decide, by decide, by decide, by decide⟩
  intro h
  have hc := h closeHalfState (by decide)
  revert hc
  decide

/-- C2, amended: create (`insert_inspecao`) is one atomic transaction
covering the record insert and all opening-photo inserts, and it is
all-or-nothing; close and reopen run their field/status UPDATE in one
transaction and — only when photos are supplied — the photo appends in a
second, separate transaction (the `engine.begin()` block of `add_photos`),
so they consist of two independently committed transactions in that case
and of one otherwise.  Running each operation's transaction list in order
reproduces the operation. -/
theorem write_txn_decomposition (rec : RecInput) (images : List Img) (iid : Nat)
    (por obs eficacia motivo : String) (now : Nat) (db : DB) :
    (insert_inspecao_txns rec images).length = 1 ∧
    runTxns (insert_inspecao_txns rec images) db = (insert_inspecao rec images db).2 ∧
    allOrNothing (insert_inspecao_txns rec images) db ∧
    (encerrar_inspecao_txns iid por obs eficacia now images).length =
      (if images.isEmpty then 1 else 2) ∧
    runTxns (encerrar_inspecao_txns iid por obs eficacia now images) db =
      encerrar_inspecao iid por obs eficacia now images db ∧
    (reabrir_inspecao_txns iid por motivo now images).length =
      (if images.isEmpty then 1 else 2) ∧
    runTxns (reabrir_inspecao_txns iid por motivo now images) db =
      reabrir_inspecao iid por motivo now images db := by
  refine ⟨rfl, rfl, ?_, ?_, ?_, ?_, ?_⟩
  · intro s hs
    simp only [committedPrefixes, insert_inspecao_txns, List.length_cons,
      List.length_nil, List.range_succ, List.range_zero, List.map_append,
      List.map_cons, List.map_nil, List.mem_append, List.mem_cons,
      List.not_mem_nil, or_false, List.nil_append] at hs
    rcases hs with hs | hs
    · exact Or.inl (by simpa [runTxns] using hs)
    · exact Or.inr (by simpa [runTxns] using hs)
  · unfold encerrar_inspecao_txns
    split <;> rfl
  · unfold encerrar_inspecao_txns encerrar_inspecao
    split <;> rfl
  · unfold reabrir_inspecao_txns
    split <;> rfl
  · unfold reabrir_inspecao_txns reabrir_inspecao
    split <;> rfl

theorem encerrar_mem_id (db : DB) (iid : Nat) (por obs eficacia : String)
    (now : Nat) (images : List Img) :
    ∀ r ∈ (encerrar_inspecao iid por obs eficacia now images db).inspecoes, r.id = iid →
      r.status = "Encerrada" ∧ r.encerrada_em = some now ∧ r.encerrada_por = some por ∧
      r.encerramento_obs = some obs ∧ r.eficacia = some eficacia := by
  intro r hr hid
  rw [encerrar_inspecoes_eq] at hr
  rcases List.mem_map.mp hr with ⟨r0, _, rfl⟩
  by_cases h : r0.id = iid
  · simp [encerrarRow, h]
  · rw [encerrarRow, if_neg h] at hid ⊢
    exact absurd hid h

/-- C3: at the data layer `encerrar_inspecao` is unconditional — for any
record matching the given id, whatever its current status (including
`"Encerrada"`), close sets status `"Encerrada"` and writes the closure
fields; closing twice leaves the closure fields equal to the second call's
values, with no "already closed" rejection. -/
theorem close_unconditional_overwrite (db : DB) (iid : Nat)
    (p1 o1 e1 : String) (t1 : Nat) (imgs1 : List Img)
    (p2 o2 e2 : String) (t2 : Nat) (imgs2 : List Img) :
    (∀ r ∈ (encerrar_inspecao iid p1 o1 e1 t1 imgs1 db).inspecoes, r.id = iid →
        r.status = "Encerrada" ∧ r.encerrada_em = some t1 ∧ r.encerrada_por = some p1 ∧
        r.encerramento_obs = some o1 ∧ r.eficacia = some e1) ∧
    (∀ r ∈ (encerrar_inspecao iid p2 o2 e2 t2 imgs2
              (encerrar_inspecao iid p1 o1 e1 t1 imgs1 db)).inspecoes, r.id = iid →
        r.status = "Encerrada" ∧ r.encerrada_em = some t2 ∧ r.encerrada_por = some p2 ∧
        r.encerramento_obs = some o2 ∧ r.eficacia = some e2) :=
  ⟨encerrar_mem_id db iid p1 o1 e1 t1 imgs1,
   encerrar_mem_id (encerrar_inspecao iid p1 o1 e1 t1 imgs1 db) iid p2 o2 e2 t2 imgs2⟩

/-- The record `rec1` after being closed twice, with the second call's
closure values. -/
def closedTwiceRow : Inspecao :=
  { rec1 with
    status := "Encerrada", encerrada_em := some 9, encerrada_por := some "p2",
    encerramento_obs := some "o2", eficacia := some "e2" }

theorem close_unconditional_overwrite_witness :
    (closedTwiceRow ∈ (encerrar_inspecao 1 "p2" "o2" "e2" 9 []
        (encerrar_inspecao 1 "p1" "o1" "e1" 8 [] db1)).inspecoes ∧
      closedTwiceRow.id = 1) ∧
    (closedTwiceRow.status = "Encerrada" ∧ closedTwiceRow.encerrada_em = some 9 ∧
     closedTwiceRow.encerrada_por = some "p2" ∧ closedTwiceRow.encerramento_obs = some "o2" ∧
     closedTwiceRow.eficacia = some "e2") :=
  ⟨⟨by decide, by decide⟩,
   (close_unconditional_overwrite db1 1 "p1" "o1" "e1" 8 [] "p2" "o2" "e2" 9 []).2
     closedTwiceRow (by decide) (by decide)⟩

/-- C4: close followed by reopen keeps the closure fields exactly as the
close wrote them and sets status to `"Em ação"` with the reopen fields
filled; moreover the per-row reopen update touches nothing but `status` and
the three reopen columns. -/
theorem close_then_reopen_frame (db : DB) (iid : Nat)
    (pc oc ec : String) (tc : Nat) (imgsc : List Img)
    (pr mr : String) (tr : Nat) (imgsr : List Img) :
    (∀ r ∈ (reabrir_inspecao iid pr mr tr imgsr
              (encerrar_inspecao iid pc oc ec tc imgsc db)).inspecoes, r.id = iid →
        r.status = "Em ação" ∧
        r.encerrada_em = some tc ∧ r.encerrada_por = some pc ∧
        r.encerramento_obs = some oc ∧ r.eficacia = some ec ∧
        r.reaberta_em = some tr ∧ r.reaberta_por = some pr ∧
        r.reabertura_motivo = some mr) ∧
    (∀ r : Inspecao,
        (reabrirRow iid pr mr tr r).id = r.id ∧
        (reabrirRow iid pr mr tr r).data = r.data ∧
        (reabrirRow iid pr mr tr r).rnc_num = r.rnc_num ∧
        (reabrirRow iid pr mr tr r).emitente = r.emitente ∧
        (reabrirRow iid pr mr tr r).area = r.area ∧
        (reabrirRow iid pr mr tr r).pep = r.pep ∧
        (reabrirRow iid pr mr tr r).titulo = r.titulo ∧
        (reabrirRow iid pr mr tr r).responsavel = r.responsavel ∧
        (reabrirRow iid pr mr tr r).descricao = r.descricao ∧
        (reabrirRow iid pr mr tr r).referencias = r.referencias ∧
        (reabrirRow iid pr mr tr r).causador = r.causador ∧
        (reabrirRow iid pr mr tr r).processo_envolvido = r.processo_envolvido ∧
        (reabrirRow iid pr mr tr r).origem = r.origem ∧
        (reabrirRow iid pr mr tr r).acao_correcao = r.acao_correcao ∧
        (reabrirRow iid pr mr tr r).severidade = r.severidade ∧
        (reabrirRow iid pr mr tr r).categoria = r.categoria ∧
        (reabrirRow iid pr mr tr r).acoes = r.acoes ∧
        (reabrirRow iid pr mr tr r).encerrada_em = r.encerrada_em ∧
        (reabrirRow iid pr mr tr r).encerrada_por = r.encerrada_por ∧
        (reabrirRow iid pr mr tr r).encerramento_obs = r.encerramento_obs ∧
        (reabrirRow iid pr mr tr r).eficacia = r.eficacia ∧
        (reabrirRow iid pr mr tr r).responsavel_acao = r.responsavel_acao) := by
  constructor
  · intro r hr hid
    rw [reabrir_inspecoes_eq, encerrar_inspecoes_eq, List.map_map] at hr
    rcases List.mem_map.mp hr with ⟨r0, _, rfl⟩
    by_cases h : r0.id = iid
    · simp [Function.comp, encerrarRow, reabrirRow, h]
    · simp only [Function.comp, encerrarRow, reabrirRow, if_neg h] at hid ⊢
      exact absurd hid h
  · intro r
    unfold reabrirRow
    split <;> simp

/-- The record `rec1` after a concrete close and a concrete reopen. -/
def reopenedRow : Inspecao :=
  { rec1 with
    status := "Em ação", encerrada_em := some 8, encerrada_por := some "pc",
    encerramento_obs := some "oc", eficacia := some "ec", reaberta_em := some 9,
    reaberta_por := some "pr", reabertura_motivo := some "mr" }

theorem close_then_reopen_frame_witness :
    (reopenedRow ∈ (reabrir_inspecao 1 "pr" "mr" 9 []
        (encerrar_inspecao 1 "pc" "oc" "ec" 8 [] db1)).inspecoes ∧
      reopenedRow.id = 1) ∧
    (reopenedRow.status = "Em ação" ∧
     reopenedRow.encerrada_em = some 8 ∧ reopenedRow.encerrada_por = some "pc" ∧
     reopenedRow.encerramento_obs = some "oc" ∧ reopenedRow.eficacia = some "ec" ∧
     reopenedRow.reaberta_em = some 9 ∧ reopenedRow.reaberta_por = some "pr" ∧
     reopenedRow.reabertura_motivo = some "mr") :=
  ⟨⟨by decide, by decide⟩,
   (close_then_reopen_frame db1 1 "pc" "oc" "ec" 8 [] "pr" "mr" 9 []).1
     reopenedRow (by decide) (by decide)⟩

theorem pepFold_peps_mono (codes : List String) :
    ∀ (acc : Nat × DB) (x : String),
      x ∈ acc.2.peps → x ∈ (codes.foldl pepStep acc).2.peps := by
  induction codes with
  | nil => intro acc x hx; exact hx
  | cons c cs ih =>
      intro acc x hx
      simp only [List.foldl_cons]
      apply ih
      show x ∈ (pepStep acc c).2.peps
      unfold pepStep
      dsimp only
      split
      · exact hx
      · exact List.mem_append_left _ hx

theorem pepFold_mem (codes : List String) :
    ∀ (acc : Nat × DB) (c : String),
      c ∈ codes → c ∈ (codes.foldl pepStep acc).2.peps := by
  induction codes with
  | nil => intro acc c hc; cases hc
  | cons c' cs ih =>
      intro acc c hc
      simp only [List.foldl_cons]
      rcases List.mem_cons.mp hc with rfl | hc
      · apply pepFold_peps_mono
        show c ∈ (pepStep acc c).2.peps
        unfold pepStep
        dsimp only
        split
        · next h => simpa using h
        · exact List.mem_append_right _ (by simp)
      · exact ih _ c hc

theorem pepFold_nodup (codes : List String) :
    ∀ acc : Nat × DB, acc.2.peps.Nodup → (codes.foldl pepStep acc).2.peps.Nodup := by
  induction codes with
  | nil => intro acc h; exact h
  | cons c cs ih =>
      intro acc h
      simp only [List.foldl_cons]
      apply ih
      show (pepStep acc c).2.peps.Nodup
      unfold pepStep
      dsimp only
      split
      · exact h
      · next hcon =>
          have hnot : c ∉ acc.2.peps := by simpa using hcon
          simp [List.nodup_append, h, hnot]

/-- The reference-code table with `"A1"` already stored. -/
def dbA1 : DB := { emptyDB with peps := ["A1"] }

/-- C5: evaluating `add_peps_bulk` at the failing input — inserting the
already-stored code `"A1"` leaves the table unchanged (the insert is
ignored) yet the function reports `1` inserted, not `0`: the counter is
incremented for every executed statement, ignored or not, so the
already-exists branch of its caller (`if n: ... else: warning`, lines
434-437) can never fire. -/
theorem add_peps_bulk_duplicate_counted :
    add_peps_bulk ["A1"] dbA1 = (1, dbA1) ∧ (1 : Nat) ≠ 0 := by decide

/-- C6: importing `["A1","A1","B2"]` into an empty reference-code table
stores exactly the two entries `["A1","B2"]`; in general the ignore-on-
conflict insert keeps a duplicate-free table duplicate-free, and every
input whose trimmed value is non-empty ends up stored. -/
theorem bulk_import_dedup :
    (add_peps_bulk ["A1", "A1", "B2"] emptyDB).2.peps = ["A1", "B2"] ∧
    ((add_peps_bulk ["A1", "A1", "B2"] emptyDB).2.peps).length = 2 ∧
    (∀ (codes : List String) (db : DB), db.peps.Nodup →
        (add_peps_bulk codes db).2.peps.Nodup) ∧
    (∀ (codes : List String) (db : DB) (c : String), c ∈ codes → strip c ≠ "" →
        strip c ∈ (add_peps_bulk codes db).2.peps) := by
  refine ⟨by decide, by decide, ?_, ?_⟩
  · intro codes db h
    unfold add_peps_bulk
    dsimp only
    split
    · exact h
    · exact pepFold_nodup _ (0, db) h
  · intro codes db c hc hne
    have hcne : c ≠ "" := fun he => hne (by rw [he]; rfl)
    have hmem : strip c ∈ (codes.filter (fun c => pyTruthy c && pyTruthy (strip c))).map strip :=
      List.mem_map.mpr ⟨c, List.mem_filter.mpr ⟨hc, by simp [pyTruthy, hcne, hne]⟩, rfl⟩
    unfold add_peps_bulk
    dsimp only
    split
    · next hemp =>
        rw [List.isEmpty_iff.mp hemp] at hmem
        cases hmem
    · exact pepFold_mem _ (0, db) _ hmem

theorem bulk_import_dedup_witness :
    (emptyDB.peps.Nodup ∧ (add_peps_bulk ["A1", "A1", "B2"] emptyDB).2.peps.Nodup) ∧
    ("B2" ∈ ["A1", "A1", "B2"] ∧ strip "B2" ≠ "" ∧
      strip "B2" ∈ (add_peps_bulk ["A1", "A1", "B2"] emptyDB).2.peps) :=
  ⟨⟨by decide, bulk_import_dedup.2.2.1 ["A1", "A1", "B2"] emptyDB (by decide)⟩,
   ⟨by decide, by decide,
    bulk_import_dedup.2.2.2 ["A1", "A1", "B2"] emptyDB "B2" (by decide) (by decide)⟩⟩

/-- C10: a bulk import consisting only of empty or whitespace-only codes
(or an empty list) is filtered away before any insert is attempted: the
call returns 0 and the database — reference-code table included — is
untouched. -/
theorem add_peps_bulk_blank_noop (codes : List String) (db : DB)
    (h : ∀ c ∈ codes, strip c = "") :
    add_peps_bulk codes db = (0, db) := by
  have hfil : codes.filter (fun c => pyTruthy c && pyTruthy (strip c)) = [] := by
    rw [List.filter_eq_nil_iff]
    intro c hc
    simp [pyTruthy, h c hc]
  simp [add_peps_bulk, hfil]

theorem add_peps_bulk_blank_noop_witness :
    (∀ c ∈ ["", "   "], strip c = "") ∧ add_peps_bulk ["", "   "] db1 = (0, db1) :=
  ⟨by decide, add_peps_bulk_blank_noop ["", "   "] db1 (by decide)⟩

/-- C7: `fetch_df` returns every stored record, sorted by descending id,
and the consultation page's status filter with `{"Encerrada"}` keeps
exactly the records whose status is `"Encerrada"`, still in descending-id
order; with no status filter selected the rows pass through unchanged. -/
theorem fetch_filter_spec (db : DB) :
    (∀ r, r ∈ statusFilter ["Encerrada"] (fetch_df db) ↔
        r ∈ db.inspecoes ∧ r.status = "Encerrada") ∧
    (statusFilter ["Encerrada"] (fetch_df db)).Sorted idGe ∧
    (∀ r, r ∈ fetch_df db ↔ r ∈ db.inspecoes) ∧
    (fetch_df db).Sorted idGe ∧
    statusFilter [] (fetch_df db) = fetch_df db := by
  have hperm := List.perm_insertionSort idGe db.inspecoes
  have hsorted := List.sorted_insertionSort idGe db.inspecoes
  have hflt : statusFilter ["Encerrada"] (fetch_df db) =
      (fetch_df db).filter (fun r => (["Encerrada"] : List String).contains r.status) := rfl
  refine ⟨?_, ?_, ?_, hsorted, rfl⟩
  · intro r
    rw [hflt, List.mem_filter]
    constructor
    · rintro ⟨hr, hs⟩
      refine ⟨hperm.mem_iff.mp hr, ?_⟩
      simpa using hs
    · rintro ⟨hr, hs⟩
      exact ⟨hperm.mem_iff.mpr hr, by simpa using hs⟩
  · rw [hflt]
    exact hsorted.filter _
  · intro r
    exact hperm.mem_iff

theorem join_list_eq_intercalate (l opts : List String) (hsub : l.Sublist opts)
    (hne : ∀ x ∈ opts, x.isEmpty = false) :
    join_list l = String.intercalate "; " l := by
  unfold join_list
  rw [List.filter_eq_self.mpr]
  intro x hx
  simp [hne x (hsub.subset hx)]

/-- C8: when the four multiselect selections are order-preserving
subsequences of their fixed option lists (as the widget produces), the
record built by the Nova RNC form stores each of them as the selections
joined in order by `"; "`, and that is exactly the value the inserted row
carries (and which the consultation page later displays verbatim). -/
theorem multiselect_join_stored (cs ps os as : List String)
    (hc : cs.Sublist CAUSADOR_OPTS) (hp : ps.Sublist PROCESSO_OPTS)
    (ho : os.Sublist ORIGEM_OPTS) (ha : as.Sublist ACAO_CORRECAO_OPTS)
    (d : Nat) (rn em ar pf ti rp de rf sv cg ra : String)
    (db : DB) (imgs : List Img) :
    (insert_inspecao (nova_rnc_rec d rn em ar pf ti rp de rf cs ps os as sv cg ra)
        imgs db).2.inspecoes =
      db.inspecoes ++
        [insertedRow (nova_rnc_rec d rn em ar pf ti rp de rf cs ps os as sv cg ra)
          db.nextInspecaoId] ∧
    (insertedRow (nova_rnc_rec d rn em ar pf ti rp de rf cs ps os as sv cg ra)
        db.nextInspecaoId).causador = String.intercalate "; " cs ∧
    (insertedRow (nova_rnc_rec d rn em ar pf ti rp de rf cs ps os as sv cg ra)
        db.nextInspecaoId).processo_envolvido = String.intercalate "; " ps ∧
    (insertedRow (nova_rnc_rec d rn em ar pf ti rp de rf cs ps os as sv cg ra)
        db.nextInspecaoId).origem = String.intercalate "; " os ∧
    (insertedRow (nova_rnc_rec d rn em ar pf ti rp de rf cs ps os as sv cg ra)
        db.nextInspecaoId).acao_correcao = String.intercalate "; " as := by
  refine ⟨(add_photos_spec _ _ _ _).1, ?_, ?_, ?_, ?_⟩
  · exact join_list_eq_intercalate cs CAUSADOR_OPTS hc (by decide)
  · exact join_list_eq_intercalate ps PROCESSO_OPTS hp (by decide)
  · exact join_list_eq_intercalate os ORIGEM_OPTS ho (by decide)
  · exact join_list_eq_intercalate as ACAO_CORRECAO_OPTS ha (by decide)

theorem multiselect_join_stored_witness :
    (List.Sublist ["Solda", "Cliente"] CAUSADOR_OPTS ∧
     List.Sublist ([] : List String) PROCESSO_OPTS ∧
     List.Sublist ([] : List String) ORIGEM_OPTS ∧
     List.Sublist ([] : List String) ACAO_CORRECAO_OPTS) ∧
    ((insert_inspecao
        (nova_rnc_rec 0 "" "" "" "" "" "" "" "" ["Solda", "Cliente"] [] [] [] "" "" "")
        [] emptyDB).2.inspecoes =
      emptyDB.inspecoes ++
        [insertedRow
          (nova_rnc_rec 0 "" "" "" "" "" "" "" "" ["Solda", "Cliente"] [] [] [] "" "" "")
          emptyDB.nextInspecaoId] ∧
     (insertedRow
        (nova_rnc_rec 0 "" "" "" "" "" "" "" "" ["Solda", "Cliente"] [] [] [] "" "" "")
        emptyDB.nextInspecaoId).causador = String.intercalate "; " ["Solda", "Cliente"] ∧
     (insertedRow
        (nova_rnc_rec 0 "" "" "" "" "" "" "" "" ["Solda", "Cliente"] [] [] [] "" "" "")
        emptyDB.nextInspecaoId).processo_envolvido = String.intercalate "; " [] ∧
     (insertedRow
        (nova_rnc_rec 0 "" "" "" "" "" "" "" "" ["Solda", "Cliente"] [] [] [] "" "" "")
        emptyDB.nextInspecaoId).origem = String.intercalate "; " [] ∧
     (insertedRow
        (nova_rnc_rec 0 "" "" "" "" "" "" "" "" ["Solda", "Cliente"] [] [] [] "" "" "")
        emptyDB.nextInspecaoId).acao_correcao = String.intercalate "; " []) ∧
    String.intercalate "; " ["Solda", "Cliente"] = "Solda; Cliente" :=
  ⟨⟨by decide, by decide, by decide, by decide⟩,
   multiselect_join_stored ["Solda", "Cliente"] [] [] []
     (by decide) (by decide) (by decide) (by decide)
     0 "" "" "" "" "" "" "" "" "" "" "" emptyDB [],
   by decide⟩

/-- C9: closing or reopening an id that matches no stored record raises no
error and leaves the records table unchanged (the UPDATE matches zero
rows), yet a supplied non-empty photo list is still inserted into the photo
table, tagged `"encerramento"` / `"reabertura"` and referencing the
nonexistent id. -/
theorem close_reopen_missing_id (db : DB) (iid : Nat)
    (p o e : String) (t : Nat) (m : String) (t2 : Nat) (imgs : List Img)
    (hid : ∀ r ∈ db.inspecoes, r.id ≠ iid) (himgs : imgs ≠ []) :
    (encerrar_inspecao iid p o e t imgs db).inspecoes = db.inspecoes ∧
    (encerrar_inspecao iid p o e t imgs db).fotos =
      db.fotos ++ mkFotos iid "encerramento" imgs db.nextFotoId ∧
    (reabrir_inspecao iid p m t2 imgs db).inspecoes = db.inspecoes ∧
    (reabrir_inspecao iid p m t2 imgs db).fotos =
      db.fotos ++ mkFotos iid "reabertura" imgs db.nextFotoId ∧
    (∀ (tipo : String) (n : Nat),
        (mkFotos iid tipo imgs n).length = imgs.length ∧
        ∀ f ∈ mkFotos iid tipo imgs n, f.inspecao_id = iid ∧ f.tipo = tipo) := by
  rcases imgs with _ | ⟨i, is⟩
  · exact absurd rfl himgs
  refine ⟨?_, ?_, ?_, ?_, ?_⟩
  · rw [encerrar_inspecoes_eq]
    have h : ∀ a ∈ db.inspecoes, encerrarRow iid p o e t a = a := fun a ha => by
      rw [encerrarRow, if_neg (hid a ha)]
    rw [List.map_congr_left h]
    exact List.map_id db.inspecoes
  · show (add_photos iid (i :: is) "encerramento" (encerrarUpdate iid p o e t db)).fotos = _
    exact (add_photos_spec _ _ _ _).2.2.2
  · rw [reabrir_inspecoes_eq]
    have h : ∀ a ∈ db.inspecoes, reabrirRow iid p m t2 a = a := fun a ha => by
      rw [reabrirRow, if_neg (hid a ha)]
    rw [List.map_congr_left h]
    exact List.map_id db.inspecoes
  · show (add_photos iid (i :: is) "reabertura" (reabrirUpdate iid p m t2 db)).fotos = _
    exact (add_photos_spec _ _ _ _).2.2.2
  · exact fun tipo n => ⟨mkFotos_length iid tipo (i :: is) n, mkFotos_fields iid tipo (i :: is) n⟩

theorem close_reopen_missing_id_witness :
    ((∀ r ∈ db1.inspecoes, r.id ≠ 2) ∧ ([img1] : List Img) ≠ []) ∧
    ((encerrar_inspecao 2 "p" "o" "e" 7 [img1] db1).inspecoes = db1.inspecoes ∧
     (encerrar_inspecao 2 "p" "o" "e" 7 [img1] db1).fotos =
       db1.fotos ++ mkFotos 2 "encerramento" [img1] db1.nextFotoId ∧
     (reabrir_inspecao 2 "p" "m" 8 [img1] db1).inspecoes = db1.inspecoes ∧
     (reabrir_inspecao 2 "p" "m" 8 [img1] db1).fotos =
       db1.fotos ++ mkFotos 2 "reabertura" [img1] db1.nextFotoId ∧
     (∀ (tipo : String) (n : Nat),
         (mkFotos 2 tipo [img1] n).length = ([img1] : List Img).length ∧
         ∀ f ∈ mkFotos 2 tipo [img1] n, f.inspecao_id = 2 ∧ f.tipo = tipo)) :=
  ⟨⟨by decide, by decide⟩,
   close_reopen_missing_id db1 2 "p" "o" "e" 7 "m" 8 [img1] (by decide) (by decide)⟩

end RNC
